import Mathlib

/-!
Verification of the NL→SQL query tool (`van.py`, `streamlit.py`).

The Python sources are shallowly embedded below. External collaborators
(the Vanna primary provider, the Mistral HTTP endpoint, the sqlite engine,
the curl binary, the filesystem) are modelled as explicit parameters:
every call that can raise in Python is an `Except`, where `.error` is a
raised exception and `.ok` a normal return. Python's in-memory dict
`query_cache` and the on-disk JSON file are an association list each,
carried in an explicit `CacheState`.
-/

namespace Van

/-- Python `str.strip()` whitespace set: space, tab, newline, carriage
return, vertical tab, form feed. -/
def isPySpace (c : Char) : Bool :=
  c = ' ' || c = '\t' || c = '\n' || c = '\r' || c = '\x0b' || c = '\x0c'

/-- Python `s.strip()`: drop leading and trailing whitespace characters. -/
def pyStrip (s : String) : String :=
  String.mk (((s.data.dropWhile isPySpace).reverse.dropWhile isPySpace).reverse)

/-- `key in d` / `d[key]` on a Python dict, modelled as an association list. -/
def dictLookup (d : List (String × String)) (k : String) : Option String :=
  match d with
  | [] => none
  | (k', v) :: rest => if k' = k then some v else dictLookup rest k

/-- `d[key] = v` on a Python dict: update in place if present, else append. -/
def dictInsert (d : List (String × String)) (k v : String) : List (String × String) :=
  match d with
  | [] => [(k, v)]
  | (k', v') :: rest =>
      if k' = k then (k, v) :: rest else (k', v') :: dictInsert rest k v

/-- An HTTP response from the Mistral chat endpoint: status code and the
extracted `choices[0].message.content` string. -/
structure MistralResp where
  status : Nat
  content : String
deriving Repr, DecidableEq

/-- `call_mistral_chat` (van.py:51-66): POST the prompt; `raise_for_status`
raises for status ≥ 400; on success return the content `.strip()`ed.
`post` models `requests.post` (its `.error` a network exception). -/
def call_mistral_chat (post : String → Except Unit MistralResp) (prompt : String) :
    Except Unit String :=
  match post prompt with
  | .error e => .error e
  | .ok resp => if resp.status < 400 then .ok (pyStrip resp.content) else .error ()

/-- The schema description built in the fallback branch (van.py:136-138):
`"\n".join(r[0] for r in cur.fetchall() if r[0])` over the rows of
`SELECT sql FROM sqlite_master WHERE type='table'`; a row's `r[0]` may be
NULL (`none`) or empty, both skipped by Python truthiness. -/
def schema_desc (rows : List (Option String)) : String :=
  String.intercalate "\n"
    (rows.filterMap (fun r =>
      match r with
      | some s => if s = "" then none else some s
      | none => none))

/-- The f-string prompt sent to Mistral in the fallback branch (van.py:139-141). -/
def mistral_prompt (schemaDesc q : String) : String :=
  "You are an expert SQL assistant.\nSchema:\n" ++ schemaDesc ++
    "\n\nQuestion: " ++ q ++ "\nSQL:"

/-- The external collaborators of `process_nl_query`:
`md5hex` is `md5(...).hexdigest()` on the question's bytes;
`generate_sql` is `vn.generate_sql` (`.ok none` models a `None` return,
`.error` a raised exception); `mistral_post` the HTTP POST;
`schema_rows` the `sqlite_master` rows read in the fallback branch;
`exec_sql` is `conn.execute(sql).fetchall()`. -/
structure ProcEnv where
  md5hex : String → String
  generate_sql : String → Except Unit (Option String)
  mistral_post : String → Except Unit MistralResp
  schema_rows : List (Option String)
  exec_sql : String → Except Unit (List (List String))

/-- The in-memory `query_cache` dict and the persisted JSON file
(`save_cache` rewrites the file from the dict). -/
structure CacheState where
  mem : List (String × String)
  disk : List (String × String)
deriving Repr, DecidableEq

/-- `query_cache[key] = sql` followed by `save_cache(query_cache)`
(van.py:142-143, 116-119): write-through to disk. -/
def store_and_save (st : CacheState) (k v : String) : CacheState :=
  let mem := dictInsert st.mem k v
  { mem := mem, disk := mem }

/-- Observable record of one resolution: whether `vn.generate_sql` was
invoked, the prompt sent to Mistral when the fallback ran (`none` when it
did not), and the SQL string the resolution produced. -/
structure Trace where
  primaryCalled : Bool
  fallbackPrompt : Option String
  sqlUsed : String
deriving Repr, DecidableEq

/-- The resolution part of `process_nl_query` (van.py:127-143): cache
lookup keyed by `md5(nl_query.encode()).hexdigest()`; on a miss,
`sql = vn.generate_sql(nl_query, allow_llm_to_see_data=True) or ""`; if
`not sql.strip()`, fall back to Mistral with the schema prompt; store the
final SQL in the cache and persist it. Exceptions raised by the primary
call or by the fallback call propagate (`.error`). -/
def resolve_sql (env : ProcEnv) (st : CacheState) (q : String) :
    Except Unit (CacheState × Trace) :=
  match dictLookup st.mem (env.md5hex q) with
  | some sql => .ok (st, ⟨false, none, sql⟩)
  | none =>
    match env.generate_sql q with
    | .error e => .error e
    | .ok r =>
      if pyStrip (r.getD "") = "" then
        match call_mistral_chat env.mistral_post
            (mistral_prompt (schema_desc env.schema_rows) q) with
        | .error e => .error e
        | .ok fsql =>
            .ok (store_and_save st (env.md5hex q) fsql,
              ⟨true, some (mistral_prompt (schema_desc env.schema_rows) q), fsql⟩)
      else
        .ok (store_and_save st (env.md5hex q) (r.getD ""), ⟨true, none, r.getD ""⟩)

/-- What `process_nl_query` shows the user after resolution: the fetched
rows on success, or the caught-and-printed execution error (van.py:146-150). -/
inductive ProcOutcome where
  | rowsPrinted (rows : List (List String))
  | execFailed
deriving Repr, DecidableEq

/-- `process_nl_query` (van.py:125-153): resolve the SQL, then execute it
inside `try/except Exception` — an execution error is caught and printed,
never re-raised; any exception during resolution propagates. -/
def process_nl_query (env : ProcEnv) (st : CacheState) (q : String) :
    Except Unit (CacheState × Trace × ProcOutcome) :=
  match resolve_sql env st q with
  | .error e => .error e
  | .ok (st', t) =>
    match env.exec_sql t.sqlUsed with
    | .ok rows => .ok (st', t, .rowsPrinted rows)
    | .error _ => .ok (st', t, .execFailed)

/-- Result table of the streamlit variant: ordered rows with named columns
(a pandas DataFrame in the app). -/
structure Table where
  cols : List String
  rows : List (List String)
deriving Repr, DecidableEq

/-- `df.empty` (streamlit.py:29). -/
def Table.isEmpty (t : Table) : Bool := t.rows.isEmpty

/-- Execution returning a table: column names plus row list, as a
DataFrame-producing `conn.execute` would. -/
structure DfEnv where
  base : ProcEnv
  exec_table : String → Except Unit (List String × List (List String))

/-- Modelled from the spec: the streamlit-app variant of `process_nl_query`
is imported and called in streamlit.py:28 but its body is not under src/
(van.py's variant prints and returns `None`, and streamlit.py also imports
`load_sql_and_train_once`, which van.py does not define — the app targets a
sibling variant of the module). Per §4.5 of the spec it returns the result
"as an ordered sequence of rows with named columns (empty table if the
query returns no rows)", and a failed execution is surfaced to the app as
an empty table ("no results / query failed", §7). Resolution is shared
with `resolve_sql`. -/
def process_nl_query_df (env : DfEnv) (st : CacheState) (q : String) :
    Except Unit (CacheState × Trace × Table) :=
  match resolve_sql env.base st q with
  | .error e => .error e
  | .ok (st', t) =>
    match env.exec_table t.sqlUsed with
    | .ok (cols, rows) => .ok (st', t, ⟨cols, rows⟩)
    | .error _ => .ok (st', t, ⟨[], []⟩)

/-- Filesystem/engine state seen by `get_connection` (van.py:70-85):
whether `files/db_inited.flag` exists, and the outcome of reading
`files/schema.sql` (`.error` models a raised `OSError`). The sqlite
connection itself carries no state the claims need. -/
structure BootFS where
  flagExists : Bool
  schema : Except Unit String
deriving Repr

/-- The engine side of bootstrap: `conn.executescript(script)` may raise
(`.error`) on bad DDL. -/
structure BootEnv where
  executescript : String → Except Unit Unit

/-- `get_connection` (van.py:70-85): `first_time = not
os.path.exists(DB_SCHEMA_FLAG)`; when first time, read the schema file,
`conn.executescript` it, then write the flag file. Returns the filesystem
state after the call, and `.ok b` where `b` records whether the DDL script
was executed in this call, or `.error` when an exception escaped (the
filesystem is then left as it was — the flag write comes after the DDL). -/
def get_connection (env : BootEnv) (fs : BootFS) : BootFS × Except Unit Bool :=
  if fs.flagExists then
    (fs, .ok false)
  else
    match fs.schema with
    | .error e => (fs, .error e)
    | .ok script =>
      match env.executescript script with
      | .error e => (fs, .error e)
      | .ok _ => ({ fs with flagExists := true }, .ok true)

/-- Network world seen by one curl invocation: whether the transfer
completes at the transport level, and the server's HTTP status when it
does. -/
structure FetchWorld where
  transportOk : Bool
  httpStatus : Nat
deriving Repr, DecidableEq

/-- The argv built at van.py:36: `["curl", "-L", url, "-o", output_path]`. -/
def curl_argv (url output_path : String) : List String :=
  ["curl", "-L", url, "-o", output_path]

/-- Whether the argv carries curl's `--fail` option, which is what makes
curl exit nonzero (code 22) on an HTTP status ≥ 400. -/
def curl_has_fail_flag (argv : List String) : Bool :=
  argv.contains "-f" || argv.contains "--fail"

/-- Exit status of a curl run: nonzero when the transport fails; with a
completed transfer, nonzero only if `--fail` was given and the HTTP status
is an error status; otherwise 0 (the error page is written to the output
file). -/
def curlExitCode (failFlag : Bool) (w : FetchWorld) : Nat :=
  if !w.transportOk then 6
  else if failFlag && decide (400 ≤ w.httpStatus) then 22
  else 0

/-- `download_sql_file_with_curl` (van.py:34-38): run curl with
`check=True` — `subprocess.run` raises `CalledProcessError` (`.error`)
exactly when the exit status is nonzero; otherwise print success and
return the output path. -/
def download_sql_file_with_curl (w : FetchWorld) (url output_path : String) :
    Except Unit String :=
  if curlExitCode (curl_has_fail_flag (curl_argv url output_path)) w = 0 then
    .ok output_path
  else
    .error ()

/-- Whether the first list is a prefix of the second, over characters. -/
def charPrefix : List Char → List Char → Bool
  | [], _ => true
  | _ :: _, [] => false
  | p :: ps, c :: cs => p = c && charPrefix ps cs

/-- Split a character list at newlines, Python `s.split("\n")` style. -/
def splitLinesAux : List Char → List Char → List String
  | [], acc => [String.mk acc.reverse]
  | c :: rest, acc =>
      if c = '\n' then String.mk acc.reverse :: splitLinesAux rest []
      else splitLinesAux rest (c :: acc)

/-- The lines of a string. -/
def splitLines (s : String) : List String := splitLinesAux s.data []

/-- A line whose first non-whitespace characters are the `--` SQL comment
marker. -/
def isCommentOnlyLine (l : String) : Bool := charPrefix "--".data (pyStrip l).data

/-- Whether some line of `s` is a comment-only line. -/
def hasCommentOnlyLine (s : String) : Bool :=
  (splitLines s).any isCommentOnlyLine

/-- `GITHUB_RAW_SQL_URL` (van.py:13). -/
def GITHUB_RAW_SQL_URL : String :=
  "https://raw.githubusercontent.com/lerocha/chinook-database/master/ChinookDatabase/DataSources/Chinook_Sqlite.sql"

/-- `SCHEMA_PATH` (van.py:14). -/
def SCHEMA_PATH : String := "files/schema.sql"

/-! Concrete instantiations of the external collaborators, used to
exercise the theorems on closed inputs. -/

/-- A world where the primary provider answers every question with
`SELECT 1;` and execution succeeds. The fingerprint is instantiated with
the identity (any deterministic `String → String` satisfies the theorems,
which are proved for every `md5hex`). -/
def envW : ProcEnv :=
  { md5hex := fun s => s
    generate_sql := fun _ => .ok (some "SELECT 1;")
    mistral_post := fun _ => .ok ⟨200, "  SELECT 2;  "⟩
    schema_rows := [some "CREATE TABLE t(x)", none, some ""]
    exec_sql := fun _ => .ok [["1"]] }

/-- A world where the primary provider returns `None`, so the fallback
must run. -/
def envF : ProcEnv := { envW with generate_sql := fun _ => .ok none }

/-- A world where the primary provider returns a non-empty response that
begins with an error marker. -/
def envE : ProcEnv :=
  { envW with generate_sql := fun _ => .ok (some "ERROR: cannot generate SQL") }

/-- A raw primary response with a comment-only line and surrounding
whitespace, followed by a statement line. -/
def rawResp : String := "  -- helpful comment\nSELECT 1;  "

/-- A world where the primary provider returns `rawResp`. -/
def envR : ProcEnv := { envW with generate_sql := fun _ => .ok (some rawResp) }

/-- A world where the primary call raises (network failure). -/
def envX : ProcEnv := { envW with generate_sql := fun _ => .error () }

/-- A world where executing `BAD SQL` fails and executing `SELECT 1;`
succeeds. -/
def envB : ProcEnv :=
  { envW with exec_sql := fun s => if s = "SELECT 1;" then .ok [["1"]] else .error ()
              generate_sql := fun _ => .ok (some "BAD SQL") }

/-- A cache state holding a failing and a working translation. -/
def stB : CacheState :=
  { mem := [("q", "BAD SQL"), ("g", "SELECT 1;")]
    disk := [("q", "BAD SQL"), ("g", "SELECT 1;")] }

/-- A world where the primary returns `None` and the fallback POST raises. -/
def envY : ProcEnv := { envF with mistral_post := fun _ => .error () }

/-- A table-returning world for the streamlit variant. -/
def envD : DfEnv :=
  { base := envW
    exec_table := fun _ => .ok (["Title"], [["A"], ["B"]]) }

/-- The same world with a query yielding no rows. -/
def envD0 : DfEnv := { envD with exec_table := fun _ => .ok (["Title"], []) }

/-! Helper lemmas about the resolver. -/

/-- `pyStrip` of the empty string. -/
theorem pyStrip_empty : pyStrip "" = "" := rfl

/-- Looking up a key just inserted into a Python dict finds the inserted
value. -/
theorem dictLookup_insert_self (d : List (String × String)) (k v : String) :
    dictLookup (dictInsert d k v) k = some v := by
  induction d with
  | nil => simp [dictInsert, dictLookup]
  | cons p rest ih =>
    obtain ⟨k', v'⟩ := p
    by_cases h : k' = k
    · simp [dictInsert, h, dictLookup]
    · simp [dictInsert, h, dictLookup, ih]

/-- A cache hit resolves to the cached SQL with neither provider invoked
and the cache state untouched. -/
theorem resolve_hit (env : ProcEnv) (st : CacheState) (q s : String)
    (h : dictLookup st.mem (env.md5hex q) = some s) :
    resolve_sql env st q = .ok (st, ⟨false, none, s⟩) := by
  simp [resolve_sql, h]

/-- A successful resolution leaves its SQL in the in-memory cache under
the question's fingerprint. -/
theorem resolve_stores (env : ProcEnv) (st : CacheState) (q : String)
    (st' : CacheState) (t : Trace)
    (h : resolve_sql env st q = .ok (st', t)) :
    dictLookup st'.mem (env.md5hex q) = some t.sqlUsed := by
  unfold resolve_sql at h
  split at h
  · simp only [Except.ok.injEq, Prod.mk.injEq] at h
    obtain ⟨h1, h2⟩ := h
    subst h1; subst h2
    assumption
  · split at h
    · simp at h
    · split at h
      · split at h
        · simp at h
        · simp only [Except.ok.injEq, Prod.mk.injEq] at h
          obtain ⟨h1, h2⟩ := h
          subst h1; subst h2
          exact dictLookup_insert_self ..
      · simp only [Except.ok.injEq, Prod.mk.injEq] at h
        obtain ⟨h1, h2⟩ := h
        subst h1; subst h2
        exact dictLookup_insert_self ..

/-- A successful resolution on a cache miss persists the in-memory cache
to disk (write-through). -/
theorem resolve_writes_through (env : ProcEnv) (st : CacheState) (q : String)
    (st' : CacheState) (t : Trace)
    (hmiss : dictLookup st.mem (env.md5hex q) = none)
    (h : resolve_sql env st q = .ok (st', t)) :
    st'.disk = st'.mem := by
  unfold resolve_sql at h
  split at h
  · simp_all
  · split at h
    · simp at h
    · split at h
      · split at h
        · simp at h
        · simp only [Except.ok.injEq, Prod.mk.injEq] at h
          obtain ⟨h1, _⟩ := h
          subst h1
          rfl
      · simp only [Except.ok.injEq, Prod.mk.injEq] at h
        obtain ⟨h1, _⟩ := h
        subst h1
        rfl

/-- A successful `process_nl_query` embeds a successful resolution. -/
theorem process_resolves (env : ProcEnv) (st : CacheState) (q : String)
    (st₁ : CacheState) (t₁ : Trace) (o₁ : ProcOutcome)
    (h : process_nl_query env st q = .ok (st₁, t₁, o₁)) :
    resolve_sql env st q = .ok (st₁, t₁) := by
  unfold process_nl_query at h
  split at h
  · simp at h
  · split at h <;> simp_all

/-- Claim C1: for any question Q, after a first `process_nl_query` call for
Q completes (possibly invoking providers), a subsequent call with the
byte-identical Q resolves the same SQL string from the cache — the trace
shows the primary was not called and no fallback prompt was sent — and
leaves the cache state unchanged, so the property holds for every later
call as well. The cache key is `env.md5hex q`, a deterministic fingerprint
of Q's exact content. -/
theorem C1_cached_question_skips_providers (env : ProcEnv) (st : CacheState) (q : String)
    (st₁ : CacheState) (t₁ : Trace) (o₁ : ProcOutcome)
    (h : process_nl_query env st q = .ok (st₁, t₁, o₁)) :
    ∃ o₂ : ProcOutcome,
      process_nl_query env st₁ q = .ok (st₁, ⟨false, none, t₁.sqlUsed⟩, o₂) := by
  have hr := process_resolves env st q st₁ t₁ o₁ h
  have hl := resolve_stores env st q st₁ t₁ hr
  have h2 := resolve_hit env st₁ q t₁.sqlUsed hl
  cases hex : env.exec_sql t₁.sqlUsed with
  | ok rows => exact ⟨.rowsPrinted rows, by simp [process_nl_query, h2, hex]⟩
  | error u => exact ⟨.execFailed, by simp [process_nl_query, h2, hex]⟩

/-- Witness for C1: in `envW` on an empty cache, the first call stores
`SELECT 1;`; the second call returns it with no provider invoked. -/
theorem C1_witness :
    process_nl_query envW ⟨[], []⟩ "q" =
      .ok (⟨[("q", "SELECT 1;")], [("q", "SELECT 1;")]⟩,
        ⟨true, none, "SELECT 1;"⟩, .rowsPrinted [["1"]]) ∧
    ∃ o₂ : ProcOutcome,
      process_nl_query envW ⟨[("q", "SELECT 1;")], [("q", "SELECT 1;")]⟩ "q" =
        .ok (⟨[("q", "SELECT 1;")], [("q", "SELECT 1;")]⟩, ⟨false, none, "SELECT 1;"⟩, o₂) :=
  ⟨rfl, C1_cached_question_skips_providers envW ⟨[], []⟩ "q"
    ⟨[("q", "SELECT 1;")], [("q", "SELECT 1;")]⟩ ⟨true, none, "SELECT 1;"⟩
    (.rowsPrinted [["1"]]) rfl⟩

/-- Claim C5: an execution failure of the resolved SQL is caught —
`process_nl_query` returns normally with the user-visible
execution-failure outcome instead of raising — and the process remains
usable: a subsequent query that resolves and executes cleanly returns its
rows. -/
theorem C5_exec_failure_caught (env : ProcEnv) (st : CacheState) (q : String)
    (st' : CacheState) (t : Trace) (u : Unit)
    (hr : resolve_sql env st q = .ok (st', t))
    (he : env.exec_sql t.sqlUsed = .error u) :
    process_nl_query env st q = .ok (st', t, .execFailed) ∧
    ∀ (q₂ : String) (st₂ : CacheState) (t₂ : Trace) (rows₂ : List (List String)),
      resolve_sql env st' q₂ = .ok (st₂, t₂) →
      env.exec_sql t₂.sqlUsed = .ok rows₂ →
      process_nl_query env st' q₂ = .ok (st₂, t₂, .rowsPrinted rows₂) := by
  constructor
  · simp [process_nl_query, hr, he]
  · intro q₂ st₂ t₂ rows₂ hr₂ he₂
    simp [process_nl_query, hr₂, he₂]

/-- Witness for C5: in `envB` with `stB`, the cached `BAD SQL` fails
execution yet the call returns normally; the next question `g` still
succeeds. -/
theorem C5_witness :
    process_nl_query envB stB "q" = .ok (stB, ⟨false, none, "BAD SQL"⟩, .execFailed) ∧
    process_nl_query envB stB "g" =
      .ok (stB, ⟨false, none, "SELECT 1;"⟩, .rowsPrinted [["1"]]) :=
  have h := C5_exec_failure_caught envB stB "q" stB ⟨false, none, "BAD SQL"⟩ () rfl rfl
  ⟨h.1, h.2 "g" stB ⟨false, none, "SELECT 1;"⟩ [["1"]] rfl rfl⟩

/-- Claim C10: on a cache miss the resolved SQL is stored write-through in
the cache before execution, so when execution then fails the SQL sits in
both the in-memory and the persisted cache, and the identical question
later resolves it from the cache with neither provider consulted. -/
theorem C10_failing_sql_stays_cached (env : ProcEnv) (st : CacheState) (q : String)
    (st₁ : CacheState) (t₁ : Trace)
    (hmiss : dictLookup st.mem (env.md5hex q) = none)
    (h : process_nl_query env st q = .ok (st₁, t₁, .execFailed)) :
    dictLookup st₁.mem (env.md5hex q) = some t₁.sqlUsed ∧
    st₁.disk = st₁.mem ∧
    resolve_sql env st₁ q = .ok (st₁, ⟨false, none, t₁.sqlUsed⟩) := by
  have hr := process_resolves env st q st₁ t₁ _ h
  have hl := resolve_stores env st q st₁ t₁ hr
  exact ⟨hl, resolve_writes_through env st q st₁ t₁ hmiss hr,
    resolve_hit env st₁ q _ hl⟩

/-- Witness for C10: in `envB` on an empty cache, the primary's `BAD SQL`
fails execution yet ends up cached in memory and on disk, and resolves
from the cache afterwards. -/
theorem C10_witness :
    dictLookup [("q", "BAD SQL")] "q" = some "BAD SQL" ∧
    ([("q", "BAD SQL")] : List (String × String)) = [("q", "BAD SQL")] ∧
    resolve_sql envB ⟨[("q", "BAD SQL")], [("q", "BAD SQL")]⟩ "q" =
      .ok (⟨[("q", "BAD SQL")], [("q", "BAD SQL")]⟩, ⟨false, none, "BAD SQL"⟩) :=
  C10_failing_sql_stays_cached envB ⟨[], []⟩ "q"
    ⟨[("q", "BAD SQL")], [("q", "BAD SQL")]⟩ ⟨true, none, "BAD SQL"⟩ rfl rfl

/-- Claim C7: after any successful `get_connection` call, the init marker
exists, and a second call executes no DDL (`.ok false`) and leaves the
filesystem untouched. -/
theorem C7_bootstrap_idempotent (env : BootEnv) (fs fs₁ : BootFS) (d₁ : Bool)
    (h : get_connection env fs = (fs₁, .ok d₁)) :
    fs₁.flagExists = true ∧ get_connection env fs₁ = (fs₁, .ok false) := by
  unfold get_connection at h
  split at h
  next hflag =>
    injection h with h1 h2
    subst h1
    exact ⟨hflag, by simp [get_connection, hflag]⟩
  next hflag =>
    split at h
    · simp at h
    · split at h
      · simp at h
      · injection h with h1 h2
        subst h1
        exact ⟨rfl, by simp [get_connection]⟩

/-- Witness for C7: a first bootstrap on a flagless filesystem succeeds;
the resulting state carries the marker and the second call is a DDL no-op. -/
theorem C7_witness :
    (⟨true, .ok "CREATE TABLE t(x);"⟩ : BootFS).flagExists = true ∧
    get_connection ⟨fun _ => .ok ()⟩ ⟨true, .ok "CREATE TABLE t(x);"⟩ =
      (⟨true, .ok "CREATE TABLE t(x);"⟩, .ok false) :=
  C7_bootstrap_idempotent ⟨fun _ => .ok ()⟩ ⟨false, .ok "CREATE TABLE t(x);"⟩
    ⟨true, .ok "CREATE TABLE t(x);"⟩ true rfl

/-- Claim C8: when executing the schema script raises during bootstrap,
the exception propagates before the marker write — the filesystem is
returned unchanged and the init marker is not set. -/
theorem C8_marker_not_written_on_ddl_failure (env : BootEnv) (fs : BootFS)
    (script : String) (e : Unit)
    (hflag : fs.flagExists = false)
    (hschema : fs.schema = .ok script)
    (hfail : env.executescript script = .error e) :
    get_connection env fs = (fs, .error e) ∧
    (get_connection env fs).1.flagExists = false := by
  have h1 : get_connection env fs = (fs, .error e) := by
    simp [get_connection, hflag, hschema, hfail]
  exact ⟨h1, by rw [h1]; exact hflag⟩

/-- Witness for C8: a failing `executescript` leaves the flag unset. -/
theorem C8_witness :
    get_connection ⟨fun _ => .error ()⟩ ⟨false, .ok "NOT DDL"⟩ =
      (⟨false, .ok "NOT DDL"⟩, .error ()) ∧
    (get_connection ⟨fun _ => .error ()⟩ ⟨false, .ok "NOT DDL"⟩).1.flagExists = false :=
  C8_marker_not_written_on_ddl_failure ⟨fun _ => .error ()⟩ ⟨false, .ok "NOT DDL"⟩
    "NOT DDL" () rfl rfl rfl

/-- Counterexample for C2 as stated: in `envE` the primary returns the
non-empty string `ERROR: cannot generate SQL`, which begins with the
error marker `ERROR`, yet the resolver sends no fallback prompt (the
trace carries `none`) and returns the marker string itself as the SQL —
the code only tests `not sql.strip()`. -/
theorem C2_counterexample :
    resolve_sql envE ⟨[], []⟩ "q" =
      .ok (⟨[("q", "ERROR: cannot generate SQL")], [("q", "ERROR: cannot generate SQL")]⟩,
        ⟨true, none, "ERROR: cannot generate SQL"⟩) ∧
    charPrefix "ERROR".data "ERROR: cannot generate SQL".data = true :=
  ⟨rfl, by decide⟩

/-- Claim C2 (amended): on a cache miss, the fallback runs exactly when
the primary result — the empty string substituted for a `None` return —
is empty after whitespace stripping; an error-marker prefix does not
trigger it. When the fallback runs, the prompt embeds the schema
description and the original question, and the resolver's result is the
fallback call's whitespace-stripped output, with its failure propagated. -/
theorem C2_fallback_on_empty_only (env : ProcEnv) (st : CacheState) (q : String)
    (r : Option String)
    (hmiss : dictLookup st.mem (env.md5hex q) = none)
    (hgen : env.generate_sql q = .ok r) :
    (pyStrip (r.getD "") = "" →
      resolve_sql env st q =
        (call_mistral_chat env.mistral_post
            (mistral_prompt (schema_desc env.schema_rows) q)).map
          (fun fsql => (store_and_save st (env.md5hex q) fsql,
            ⟨true, some (mistral_prompt (schema_desc env.schema_rows) q), fsql⟩))) ∧
    (pyStrip (r.getD "") ≠ "" →
      resolve_sql env st q =
        .ok (store_and_save st (env.md5hex q) (r.getD ""), ⟨true, none, r.getD ""⟩)) := by
  constructor
  · intro hs
    cases hm : call_mistral_chat env.mistral_post
        (mistral_prompt (schema_desc env.schema_rows) q) with
    | error e => simp [resolve_sql, hmiss, hgen, hs, hm, Except.map]
    | ok fsql => simp [resolve_sql, hmiss, hgen, hs, hm, Except.map]
  · intro hs
    simp [resolve_sql, hmiss, hgen, hs]

/-- Witness for C2: in `envF` the primary returns `None`, the fallback
runs with the schema-and-question prompt, and its stripped output is
stored and returned. -/
theorem C2_witness :
    resolve_sql envF ⟨[], []⟩ "q" =
      (call_mistral_chat envF.mistral_post
          (mistral_prompt (schema_desc envF.schema_rows) "q")).map
        (fun fsql => (store_and_save ⟨[], []⟩ (envF.md5hex "q") fsql,
          ⟨true, some (mistral_prompt (schema_desc envF.schema_rows) "q"), fsql⟩)) ∧
    resolve_sql envF ⟨[], []⟩ "q" =
      .ok (⟨[("q", "SELECT 2;")], [("q", "SELECT 2;")]⟩,
        ⟨true,
          some "You are an expert SQL assistant.\nSchema:\nCREATE TABLE t(x)\n\nQuestion: q\nSQL:",
          "SELECT 2;"⟩) :=
  ⟨(C2_fallback_on_empty_only envF ⟨[], []⟩ "q" none rfl rfl).1 rfl, rfl⟩

/-- Counterexample for C3 as stated: the raw primary response `rawResp`
contains a comment-only line and surrounding whitespace, yet the resolver
returns it character-for-character — the comment line is not removed and
the whitespace is not stripped. -/
theorem C3_counterexample :
    resolve_sql envR ⟨[], []⟩ "q" =
      .ok (⟨[("q", rawResp)], [("q", rawResp)]⟩, ⟨true, none, rawResp⟩) ∧
    hasCommentOnlyLine rawResp = true ∧
    pyStrip rawResp ≠ rawResp :=
  ⟨rfl, by decide, by decide⟩

/-- Claim C3 (amended): no comment-line removal exists anywhere in the
pipeline. A primary response that does not strip to empty is returned
verbatim — every line, comment-only ones included, in original order —
and the only sanitization applied at all is `call_mistral_chat` stripping
leading/trailing whitespace off the fallback's content. -/
theorem C3_no_comment_stripping (env : ProcEnv) (st : CacheState) (q s : String)
    (resp : MistralResp) (p : String)
    (hmiss : dictLookup st.mem (env.md5hex q) = none)
    (hgen : env.generate_sql q = .ok (some s))
    (hne : pyStrip s ≠ "") :
    resolve_sql env st q =
      .ok (store_and_save st (env.md5hex q) s, ⟨true, none, s⟩) ∧
    (env.mistral_post p = .ok resp → resp.status < 400 →
      call_mistral_chat env.mistral_post p = .ok (pyStrip resp.content)) := by
  constructor
  · simp [resolve_sql, hmiss, hgen, hne]
  · intro hp hst
    simp [call_mistral_chat, hp, hst]

/-- Witness for C3: `envR`'s commented raw response is returned verbatim,
and a fallback response is only whitespace-stripped. -/
theorem C3_witness :
    resolve_sql envR ⟨[], []⟩ "q" =
      .ok (⟨[("q", rawResp)], [("q", rawResp)]⟩, ⟨true, none, rawResp⟩) ∧
    call_mistral_chat envR.mistral_post "p" = .ok "SELECT 2;" :=
  have h := C3_no_comment_stripping envR ⟨[], []⟩ "q" rawResp
    ⟨200, "  SELECT 2;  "⟩ "p" rfl rfl (by decide)
  ⟨h.1, h.2 rfl (by decide)⟩

/-- Counterexample for C4 as stated: in `envX` the primary call raises;
`process_nl_query` has no handler around it, so the exception surfaces to
the caller instead of triggering the fallback. -/
theorem C4_counterexample :
    process_nl_query envX ⟨[], []⟩ "q" = .error () := rfl

/-- Claim C4 (amended): a primary failure signalled in the return value
(`None`, read as the empty string) triggers the fallback and is not
surfaced; but an exception raised by the primary call is not caught — it
propagates to the caller — and a failure of the fallback call is likewise
fatal. -/
theorem C4_error_policy (env : ProcEnv) (st : CacheState) (q : String) (e : Unit)
    (hmiss : dictLookup st.mem (env.md5hex q) = none) :
    (env.generate_sql q = .error e → process_nl_query env st q = .error e) ∧
    (env.generate_sql q = .ok none →
      resolve_sql env st q =
        (call_mistral_chat env.mistral_post
            (mistral_prompt (schema_desc env.schema_rows) q)).map
          (fun fsql => (store_and_save st (env.md5hex q) fsql,
            ⟨true, some (mistral_prompt (schema_desc env.schema_rows) q), fsql⟩))) ∧
    (env.generate_sql q = .ok none →
      call_mistral_chat env.mistral_post
          (mistral_prompt (schema_desc env.schema_rows) q) = .error e →
      process_nl_query env st q = .error e) := by
  refine ⟨?_, ?_, ?_⟩
  · intro hg
    simp [process_nl_query, resolve_sql, hmiss, hg]
  · intro hg
    cases hm : call_mistral_chat env.mistral_post
        (mistral_prompt (schema_desc env.schema_rows) q) with
    | error e' => simp [resolve_sql, hmiss, hg, hm, Except.map, pyStrip_empty]
    | ok fsql => simp [resolve_sql, hmiss, hg, hm, Except.map, pyStrip_empty]
  · intro hg hm
    simp [process_nl_query, resolve_sql, hmiss, hg, hm, pyStrip_empty]

/-- Witness for C4: a raising primary surfaces (`envX`); a raising
fallback after a `None` primary surfaces too (`envY`). -/
theorem C4_witness :
    process_nl_query envX ⟨[], []⟩ "q" = .error () ∧
    process_nl_query envY ⟨[], []⟩ "q" = .error () :=
  ⟨(C4_error_policy envX ⟨[], []⟩ "q" () rfl).1 rfl,
   (C4_error_policy envY ⟨[], []⟩ "q" () rfl).2.2 rfl rfl⟩

/-- Claim C6 (executor modelled from the spec, §4.5): when the resolved
SQL executes successfully, the table-returning query operation hands the
caller the rows with their column names in engine order, and a query
yielding no rows gives an empty table. -/
theorem C6_success_returns_table (env : DfEnv) (st : CacheState) (q : String)
    (st' : CacheState) (t : Trace) (cols : List String) (rows : List (List String))
    (hr : resolve_sql env.base st q = .ok (st', t))
    (he : env.exec_table t.sqlUsed = .ok (cols, rows)) :
    process_nl_query_df env st q = .ok (st', t, ⟨cols, rows⟩) ∧
    (rows = [] → Table.isEmpty ⟨cols, rows⟩ = true) := by
  constructor
  · simp [process_nl_query_df, hr, he]
  · intro h
    subst h
    rfl

/-- Witness for C6: a populated result comes back as its rows with named
columns; an empty result comes back as an empty table. -/
theorem C6_witness :
    process_nl_query_df envD ⟨[], []⟩ "q" =
      .ok (⟨[("q", "SELECT 1;")], [("q", "SELECT 1;")]⟩, ⟨true, none, "SELECT 1;"⟩,
        ⟨["Title"], [["A"], ["B"]]⟩) ∧
    process_nl_query_df envD0 ⟨[], []⟩ "q" =
      .ok (⟨[("q", "SELECT 1;")], [("q", "SELECT 1;")]⟩, ⟨true, none, "SELECT 1;"⟩,
        ⟨["Title"], []⟩) ∧
    Table.isEmpty ⟨["Title"], ([] : List (List String))⟩ = true :=
  have h1 := C6_success_returns_table envD ⟨[], []⟩ "q"
    ⟨[("q", "SELECT 1;")], [("q", "SELECT 1;")]⟩ ⟨true, none, "SELECT 1;"⟩
    ["Title"] [["A"], ["B"]] rfl rfl
  have h2 := C6_success_returns_table envD0 ⟨[], []⟩ "q"
    ⟨[("q", "SELECT 1;")], [("q", "SELECT 1;")]⟩ ⟨true, none, "SELECT 1;"⟩
    ["Title"] [] rfl rfl
  ⟨h1.1, h2.1, h2.2 rfl⟩

/-- Counterexample for C9 as stated: with the transport succeeding and the
server answering HTTP 404 — a non-success status — the curl invocation
(whose argv lacks `--fail`) exits 0, so `download_sql_file_with_curl`
raises nothing and reports the destination as provisioned. -/
theorem C9_counterexample :
    download_sql_file_with_curl ⟨true, 404⟩ GITHUB_RAW_SQL_URL SCHEMA_PATH =
      .ok SCHEMA_PATH ∧
    400 ≤ (404 : Nat) :=
  ⟨rfl, by decide⟩

/-- Claim C9 (amended): the fetch raises (`CalledProcessError` via
`check=True`) exactly when the curl transport fails; because the argv
carries no `--fail` flag, a completed transfer exits 0 whatever the HTTP
status, so a non-success status goes undetected and the destination is
treated as provisioned. -/
theorem C9_fetch_fails_on_transport_only (w : FetchWorld) :
    download_sql_file_with_curl w GITHUB_RAW_SQL_URL SCHEMA_PATH =
      (if w.transportOk then .ok SCHEMA_PATH else .error ()) ∧
    curl_has_fail_flag (curl_argv GITHUB_RAW_SQL_URL SCHEMA_PATH) = false := by
  obtain ⟨t, s⟩ := w
  cases t <;> exact ⟨rfl, rfl⟩

end Van
